import Mathlib

set_option maxRecDepth 100000

/-! # Embedding of convert_student_data.py

Shallow embedding of the student-data conversion script: the date parser
`parse_date`, the field cleaner `clean_text`, and the per-line conversion
loop of `convert_student_data`, together with the embedded raw data blob.
Strings are processed as lists of characters; `String.mk` / `String.toList`
mediate at the boundaries. -/

/-- The double-quote character (written by code point to keep string literals
    elsewhere in this file unambiguous). -/
def dqChar : Char := Char.ofNat 34

/-- The single-quote character. -/
def sqChar : Char := Char.ofNat 39

/-- Membership in Python's `str.strip()` default whitespace set
    (space, tab, newline, carriage return, vertical tab, form feed);
    the embedded data only contains space, tab and newline. -/
def isPyWhitespace (c : Char) : Bool :=
  c == ' ' || c == '\t' || c == '\n' || c == '\r' || c == '\x0b' || c == '\x0c'

/-- Python `str.strip()` on a list of characters: drop leading and trailing
    whitespace. -/
def pyStripList (l : List Char) : List Char :=
  ((l.dropWhile isPyWhitespace).reverse.dropWhile isPyWhitespace).reverse

/-- Python `str.strip()`. -/
def pyStrip (s : String) : String := String.mk (pyStripList s.toList)

/-- Python `str.split(sep)` for a one-character separator: split at every
    occurrence, keeping empty pieces (so the result always has one more piece
    than there are separators). -/
def splitOnChar (sep : Char) : List Char → List (List Char)
  | [] => [[]]
  | c :: rest =>
    if c == sep then [] :: splitOnChar sep rest
    else
      match splitOnChar sep rest with
      | [] => [[c]]
      | h :: t => (c :: h) :: t

/-- The numeric value of a nonempty all-digit character list (base 10). -/
def digitsVal (cs : List Char) : Option Nat :=
  if !cs.isEmpty && cs.all Char.isDigit then
    some (cs.foldl (fun a c => a * 10 + (c.toNat - 48)) 0)
  else none

/-- Models Python `int(str)` for the ASCII strings reachable here: surrounding
    whitespace is stripped and an optional single sign precedes the digits
    (digit-group underscores are not modelled; `int` is only ever applied to
    two-character year strings, where underscores cannot occur legally). -/
def pyInt (l : List Char) : Option Int :=
  match pyStripList l with
  | [] => none
  | c :: rest =>
    if c == '+' then (digitsVal rest).map Int.ofNat
    else if c == '-' then (digitsVal rest).map (fun n => -(n : Int))
    else (digitsVal (c :: rest)).map Int.ofNat

/-- Python `str.zfill(2)`: left-pad with `0` to width 2; a leading sign
    character stays in front of the inserted zero. -/
def zfill2 : List Char → List Char
  | [] => ['0', '0']
  | [c] => if c == '+' || c == '-' then [c, '0'] else ['0', c]
  | l => l

/-- The shared try-block body of `parse_date`: unpack the three pieces as
    day, month, year; a two-character year is expanded by the pivot rule
    (`'20' + year` when `int(year) < 50`, else `'19' + year`), where a failing
    `int` conversion raises (modelled as `none`, the except-pass fallthrough);
    otherwise the year is kept verbatim; the result is
    `year-month.zfill(2)-day.zfill(2)`. `none` is returned exactly when the
    block falls through: wrong arity or an exception from `int`. -/
def dmyFormat (parts : List (List Char)) : Option (List Char) :=
  match parts with
  | [day, month, year] =>
    (if year.length = 2 then
       (pyInt year).map (fun n =>
         (if n < 50 then ['2', '0'] else ['1', '9']) ++ year)
     else some year).map (fun y => y ++ '-' :: (zfill2 month ++ '-' :: zfill2 day))
  | _ => none

/-- `parse_date`: `None` and blank input give `None`; a stripped input that
    contains `/` is split on `/` and formatted when that yields exactly three
    parts and no exception; otherwise an input that splits into exactly three
    parts on `-` is formatted the same way; anything else gives `None`. -/
def parse_date (dateStr : Option String) : Option String :=
  match dateStr with
  | none => none
  | some s =>
    let ds := pyStripList s.toList
    if ds.isEmpty then none
    else
      match (if ds.contains '/' then dmyFormat (splitOnChar '/' ds) else none) with
      | some r => some (String.mk r)
      | none =>
        if ds.contains '-' && (splitOnChar '-' ds).length == 3 then
          (dmyFormat (splitOnChar '-' ds)).map String.mk
        else none

/-- `clean_text`: falsy (empty) input gives the empty string; otherwise strip
    surrounding whitespace, then delete every double-quote character, then
    every single-quote character (`.strip().replace` chain of the source). -/
def clean_text (text : String) : String :=
  if text == "" then ""
  else
    String.mk (((pyStripList text.toList).filter (fun c => c != dqChar)).filter
      (fun c => c != sqChar))

/-- The output record shape: the 24 named keys of the student dict. -/
structure StudentRecord where
  admissionNo : String
  fullName : String
  dateOfBirth : Option String
  bloodGroup : String
  shaakha : String
  gothra : String
  telephone : String
  fatherName : String
  motherName : String
  occupation : String
  nationality : String
  religion : String
  caste : String
  motherTongue : String
  presentAddress : String
  permanentAddress : String
  lastSchoolAttended : String
  lastStandardStudied : String
  tcDetails : String
  admittedToStandard : String
  dateOfAdmission : Option String
  currentStandard : String
  remarks : String
  guardianEmail : String
deriving DecidableEq, Inhabited

/-- Builds the student dict from the stripped fields of one line. The source
    indexes `parts[0]` … `parts[21]` unconditionally (index 3 is skipped) and
    `parts[22]` only behind a `len(parts) > 22` guard; an index past the end of
    the list raises `IndexError`, modelled as `none`. -/
def assemble : List (List Char) → Option StudentRecord
  | p0 :: p1 :: p2 :: _p3 :: p4 :: p5 :: p6 :: p7 :: p8 :: p9 :: p10 :: p11 ::
    p12 :: p13 :: p14 :: p15 :: p16 :: p17 :: p18 :: p19 :: p20 :: p21 :: rest =>
    some {
      admissionNo := clean_text (String.mk p0)
      fullName := clean_text (String.mk p1)
      dateOfBirth := parse_date (some (String.mk p2))
      bloodGroup := clean_text (String.mk p4)
      shaakha := clean_text (String.mk p5)
      gothra := clean_text (String.mk p6)
      telephone := clean_text (String.mk p7)
      fatherName := clean_text (String.mk p8)
      motherName := clean_text (String.mk p9)
      occupation := clean_text (String.mk p10)
      nationality := clean_text (String.mk p11)
      religion := clean_text (String.mk p12)
      caste := clean_text (String.mk p13)
      motherTongue := clean_text (String.mk p14)
      presentAddress := clean_text (String.mk p15)
      permanentAddress := clean_text (String.mk p16)
      lastSchoolAttended := clean_text (String.mk p17)
      lastStandardStudied := clean_text (String.mk p18)
      tcDetails := clean_text (String.mk p19)
      admittedToStandard := clean_text (String.mk p20)
      dateOfAdmission := parse_date (some (String.mk p21))
      currentStandard := clean_text (String.mk p20)
      remarks :=
        match rest with
        | r22 :: _ => clean_text (String.mk r22)
        | [] => ""
      guardianEmail := "" }
  | _ => none

/-- Python truthiness of a string: non-empty. -/
def strTruthy (s : String) : Bool := s != ""

/-- Python truthiness of an optional string: `None` and `""` are falsy. -/
def optStrTruthy : Option String → Bool
  | none => false
  | some s => strTruthy s

/-- The outcome of one iteration of the conversion loop for one line. -/
inductive LineResult where
  | blank
  | tooShort
  | errorSkipped
  | dropped (r : StudentRecord)
  | accepted (r : StudentRecord)
deriving DecidableEq, Inhabited

/-- The stripped tab-separated fields of one line:
    `[part.strip() for part in line.split('\t')]`. -/
def lineFields (line : String) : List (List Char) :=
  (splitOnChar '\t' line.toList).map pyStripList

/-- One iteration of the conversion loop: skip blank lines, skip lines with
    fewer than 20 fields, build the student dict (an `IndexError` is caught:
    a diagnostic is printed and the line is skipped, `errorSkipped`), and keep
    the record only when `admissionNo`, `fullName` and `dateOfBirth` are all
    truthy. -/
def processLine (line : String) : LineResult :=
  if (pyStripList line.toList).isEmpty then .blank
  else
    let parts := lineFields line
    if parts.length < 20 then .tooShort
    else
      match assemble parts with
      | none => .errorSkipped
      | some st =>
        if strTruthy st.admissionNo && strTruthy st.fullName &&
            optStrTruthy st.dateOfBirth then .accepted st
        else .dropped st

/-- The record a line contributes to the output, if any. -/
def lineRecord? (line : String) : Option StudentRecord :=
  match processLine line with
  | .accepted st => some st
  | _ => none

/-- The output sequence produced by the conversion loop over a list of lines:
    accepted records in input order. -/
def recordsOf (lines : List String) : List StudentRecord :=
  lines.filterMap lineRecord?

/-- The first physical line of the raw_data literal. -/
def rawLine0 : String :=
  "28/2006\tShrijith J.Bale\t12/11/94\t30.8\tO +ve\tRig Veda\tKaundinya\t9325544168\tBale Jayant\t\tLab technician\tIndian\tHindu\tBrahmin\tKonkani\tHOUSE NO.279, Near VIDYA BHAWAN, COMBA, MARGAO, Goa\tSame\tVVMVP\t10th\t\x22203/10-11"

/-- Physical lines 2..113 of the raw_data literal, in order. -/
def rawLinesMid : List String := [
  "11-12-2010\x22\tPrathama\t22/06/06\t19.2\t\t",
  "10/2008\tBasudev Aryal\t09/10/95\t29.9\tB +ve\tAtharvana Veda\tAthreya\t9847078791\tGopal Prasad Aryal\t\tBusiness\tNepali\tHindu\tBrahmin\tNepali\tShankernagar-1 Dist. Rupandehi, Nepal\tSame\tP B H S S\t7th\t8\tPrathama\t15/05/08\t17.3\t\t",
  "01/2008\tSatish. C\t21/09/96\t29.0\tB +ve\tRig Veda\tRathitara\t9741010818\tChandrashekar\t\tBusiness\tIndian\tHindu\tBrahmin\tKannada\tU-31, 14 Cross, Maruti badavane palace Guttalli, malleshwaram, Bangalore. Karnataka\tSame\tVVMVP\t7th\t\x2216/08-09",
  "date 6-6-2008\x22\tPrathama\t05/06/08\t17.2\t\t",
  "04/2008\tNikhil Kumar Sharma\t17/05/00\t25.3\tAB +ve\tRig Veda\tShandilya\t9631315627\tRajesh Sharma\t\tFarmer\tIndian\tHindu\tBrahmin\tHindi\tAranda, Aurangabad,  Bihar\tSame\tZilla Shiksha Adeeshak\t5th\t0\tPrathama\t05/06/08\t17.2\t\t",
  "11/2009\tAaditya Maganti\t16/07/97\t28.1\tA +ve\tKrishna Yajur Veda\tKashyapa\t9945505423\tVenkata Raman\t\tBusiness\tIndian\tHindu\tBrahmin\tTelugu\tMIG-18, APHB colony, Nallapaudu Rd., Guntur, Andhra Pradesh\tSame\tDAV public school\t5th\t\x221483",
  "date 13-3-08\x22\tPrathama\t27/07/09\t16.1\t\t",
  "15/2009\tV Harshavardhan Rao\t14/04/99\t26.4\tA +ve\tKrishna Yajur Veda\tKashyapa\t8985594670 09008531478\tV Chalapathi Rao\t\tAgriculture\tIndian\tHindu\tBrahmin\tTelugu\t#1/39 Nayana Cheruvu palli, kadirinathuni kota Post,  Chittor-517390, Andhra Pradesh\tSame\tS V P High School\t6th\t20822\tPrathama\t30/10/09\t15.8\t\t",
  "02/2010\tShashank M Hegde\t31/03/98\t27.4\tB +ve\tKrishna Yajur Veda\tJamadagni\t\x229448881108",
  "9663047072\x22\tMadhu Hegde\t\tElectrician\tIndian\tHindu\tBrahmin\tKannada\t1457/1, Varadajagudi Rd., Kote channa pattna, Ramnagar Dist. Karnataka\tSame\tGovt. Model Primary School\t7th\t\x2233/10-11",
  "date15-6-10\x22\tPrathama\t21/03/10\t15.5\t\t",
  "13/2010\tSubraya M Hegde\t07/12/99\t25.8\tA +ve\tKrishna Yajur Veda\tVashista\t9481633814\tManjunath Hegde\t\tFarmer\tIndian\tHindu\tBrahmin\tKannada\tManjunath Hegde, gunda(p), joeda (tq), uttarkannada (d) Karnataka\tSame\tGovt Higher Primary School\t5th\t\x226/2010-11",
  "23/7/2010\x22\tPrathama\t01/06/10\t15.3\t\t",
  "14/2010\tGanapathi M Hegde\t28/04/98\t27.4\tA +ve\tKrishna Yajur Veda\tVashista\t9481633814\tManjunath Hegde\t\tFarmer\tIndian\tHindu\tBrahmin\tKannada\tManjunath Hegde, gunda(p), joeda (tq), uttarkannada (d) Karnataka\tSame\tGovt Higher Primary School\t7th\t\x2226/10-11",
  "22-06-2010\x22\tPrathama\t01/06/10\t15.3\t\t",
  "12/2010\tUttamakumar Sharma\t05/05/99\t26.3\tA +ve\tSama Veda\tParashara\t8553737859\tGhanshyam Sharma\t\tSecurity Supervisor\tIndian\tHindu\tBrahmin\tHindi\tA O L Ashram\tNavadi (v), purnadi (p), obera (tq), Aourangabad (d), Bihar\tR U M V\t5TH\t\x221864400",
  "12-06-10\x22\tPrathama\t14/06/10\t15.2\t\t",
  "22/2011\tAmith Shukla\t20/07/01\t24.1\tB +ve\tShukla Yajur Veda\tGarg\t\x229914192948",
  "9914867147\x22\tPurnakameshwar Shukla\t\tFarmer\tIndian\tHindu\tBrahmin\tHindi\tAnuj Shukla, devariya (v), mushhari (p), deoria (d) - 274408 Uttar Pradesh\tSame\tP H P P S\t5th\t\x2244",
  "02-07-2012\x22\tPrathama\t01/07/11\t14.2\t\t",
  "19/2011\tShubham Shukla\t17/10/02\t22.9\tO +ve\tShukla Yajur Veda\tGarg\t\x229473514137",
  "9935064300\x22\tPurnakameshwar Shukla\t\tFarmer\tIndian\tHindu\tBrahmin\tHindi\tAnuj Shukla, devariya (v), mushhari (p), deoria (d) - 274408 Uttar Pradesh\tSame\tP H P P S\t3rd\t01/07/12\tPrathama\t02/07/11\t14.2\t\t",
  "01/2012\tAnkit Kashyap\t06/03/00\t25.5\tO +ve\tAtharvana Veda\tKashyapa\t\x227204843824",
  "9035536948\x22\tSanjay Jha\t\tSeva Ashram\tIndian\tHindu\tBrahmin\tHindi\tBhramarpur (v)(t), Narayanpur (anchal), Bhagalpur - 853 203 Bihar\tSame\tZilla Shiksha Adeeshak\t7th\t\x2248",
  "31-3-2012\x22\tPrathama\t19/06/12\t13.2\t\t",
  "01/2013\tSangam Pathak\t22/05/00\t25.3\tB +ve\tShukla Yajur Veda\tKoushika\t\x2297714353452",
  "9841046493\x22\tNawaraj Pathak\t\tFarmer\tNepali\tHindu\tBrahmin\tNepali\tNawarajpathak, Thapa gaun (v), Thanapati Nuwakot (d), bagmati (s) Nepal\tSame\tKantipur English Academy\t7th\t209/2070\tPrathama\t14/05/13\t12.3\t\t",
  "04/2013\tOm Shrinivas Bagalkot\t01/05/02\t23.4\tAB +ve\tShukla Yajur Veda\tKaundinya\t\x229449983388",
  "9611500721\x22\tShrinivas R Bagalkot\t\tClerk in Hospital\tIndian\tHindu\tBrahmin\tKannada\tSaiadhar hospital, Rabkavi (v), Bagalkot (d) - 587314. Karnataka\tHospet lane, Rabkavi - 587314, Bagalkot, Karnataka\tBangarama Primary School\t6th\t\x2240/2013-14",
  "28-6-2013\x22\tPrathama\t10/06/13\t12.2\t\t",
  "05/2013\tA Dhakshina Moorthy\t19/06/03\t22.2\tO +ve\tRig Veda\tMoudgalya\t\x229994520046",
  "9047583774\x22\tS Arun Raja\t\tPurohit\tIndian\tHindu\tBrahmin\tTelugu\tFlat 76, new Bedalagam, Redthpopu, Ambur, Vellore (d), Tamilnadu\tsame\tHindu Aided Primary School\t5th\t-\tPrathama\t12/06/13\t12.2\t\t",
  "07/2013\tHarsha.R\t30/10/99\t25.9\tO +ve\tRig Veda\tAthreya\t9535030048\tRamachandra Rao\t\tFabrication\tIndian\tHindu\tBrahmin\tKannada\t274, 7th Man Road, Behinaveeramma Building, Vrushabavathi Nagar, KamakshiPalya, Bangalore - 560079. Karnataka\tSame\tSri Maruthi Vidya Mandira Primary & High School\t8th\t\x2257/14-15",
  "30-5-2014\x22\tPrathama\t01/07/13\t12.2\t\t",
  "09/2013\tNitesh Sharma\t05/11/02\t22.8\tB +ve\tShukla Yajur Veda\tKoushika\t\x2201792288117",
  "9882227092\x22\tRattan Lal Sharma\t\tGovt. Employee\tIndian\tHindu\tBrahmin\tHindi\thamni (v), dhayola (p), kandaghat (st), solan (d) - 173207. Himachal Pradesh\tC/o R D Sharma, Sharma Bhawan, Near Durga Temple, P.O Bharari, Kelti, Shimla 171001. Himachal Pradesh\tHim Adarsh Public School\t5th\t\x2215",
  "25-6-2013\x22\tPrathama\t07/07/13\t12.2\t\t",
  "10/2013\tRohit Sharma\t26/10/03\t21.9\tB +ve\tShukla Yajur Veda\tKoushika\t\x2201792288117",
  "9817886471\x22\tGhanshyam Sharma\t\tFarmer\tIndian\tHindu\tBrahmin\tHindi\thamni (v), dhayola (p), kandaghat (st), solan (d) - 173207. Himachal Pradesh\tC/o R D Sharma, Sharma Bhawan, Near Durga Temple, P.O Bharari, Kelti, Shimla 171001. Himachal Pradesh\tHim Adarsh Public School\t5th\t\x2214",
  "25-6-2013\x22\tPrathama\t07/07/13\t12.2\t\t",
  "11/2013\tPuneeth H L\t19/07/99\t26.1\tB +ve\tShukla Yajur Veda\tBharadwaja\t9845518347\tLokesh H K\t\tPrivate Employee\tIndian\tHindu\tBrahmin\tKannada\thirandhali (v), virgonagar (po), bangalore - 560049. Karnataka\tSame\tSree Venkateswara English High School\t8th\t201/2014-15\tPrathama\t12/09/13\t12.0\t\t",
  "01/2014\tCharan H R\t23/09/02\t23.0\tAB +ve\tKrishna Yajur Veda\tShalavatsa\t\x229448761087",
  "9901695330\x22\tH S Ramprasad\t\tElectricals\tIndian\tHindu\tBrahmin\tKannada\t#86, Ground floor, Sri Radhakrishna RoadTR nagar 1st block Bangalore-30\tSame\tS G P T A High School\t6th\t43/2014-15\tPrathama\t06/06/14\t11.2\t\t",
  "04/2014\tSriram G\t21/05/03\t22.3\tA +ve\tKrishna Yajur Veda\tKashyapa\t\x228123406404",
  "9036538880\x22\tGundu Rao K\t\tElectrician\tIndian\tHindu\tBrahmin\tKannada\t#72, 2nd cross, 1st main, Kenchenahalli Bangalore-98\tSri Chandrakala Krupa, Sriram Extn, Near Sriram Gym, Nituvalli, Davangere. Karnataka\tPoorna Prajna Vidyapeetha\t7th\t18/2014-15\tPrathama\t07/06/14\t11.2\t\t",
  "06/2014\tVinay Darbha\t03/03/01\t24.5\tO +ve\tKrishna Yajur Veda\tLohithasa\t\x2208578230229",
  "08008623833",
  "9989388821\x22\tLate. D Vijaya Kumar Sarma\t\tRecord Asst. SriKalahasthi Temple\tIndian\tHindu\tBrahmin\tTelugu\t16- 603/B,Pangal Rd., Shrikalahasti, Andhar Pradesh\tSame\tNararyana E M High School\t5th\t85\tPrathama\t25/06/14\t11.2\t\t",
  "08/2014\tVipin Sapkota\t16/07/02\t23.1\tO +ve\tShukla Yajur Veda\tKaundinya\t\x2200977",
  "9847028355\x22\tBijay Mohan Sapkota\t\tIndian Army\tNepali\tHindu\tBrahmin\tNepali\tShawkarnagar-3, Roopandehi, Nepal\tSame\tP B H S S\t7th\t21/071\tPrathama\t10/07/14\t11.2\t\t",
  "09/2014\tKedar Prasad Adhikari\t10/06/01\t24.2\tA +ve\tShukla Yajur Veda\tKashyapa\t\x2200977",
  "9741009390\x22\tPurna Prasad Adhikari\t\tPurohit\tNepali\tHindu\tBrahmin\tNepali\tDhngkhark ward no 2,Kabhre (d), Nepal\tSame\tS K G S S\t7th\t23/07/14\tPrathama\t10/07/14\t11.2\t\t",
  "10/2014\tSiddartha Pandey\t24/07/02\t23.1\tA +ve\tShukla Yajur Veda\tKashyapa\t\x2200977",
  "71524972",
  "9857023985\x22\tBishnu Prasad Pandey\t\tAOL Teacher\tNepali\tHindu\tBrahmin\tNepali\tBp path, siddarthanagar 8Bhairahawa, rupandhi (d), Nepal\tSame\tS G H S S\t6th\t10/071\tPrathama\t10/07/14\t11.2\t\t",
  "12/2014\tBhishma Pandey\t16/02/04\t21.6\tA +ve\tShukla Yajur Veda\tKashyapa\t\x2200977",
  "9857062271\x22\tRam Prasad Pandey\t\tFarmer\tNepali\tHindu\tBrahmin\tNepali\tPandhi, thulo lumpek-9,Gulmi (d), Nepal\tSame\tS D P V\t5th\t25\tPrathama\t13/07/14\t11.1\t\t",
  "13/2014\tGaurav Upadhyay\t15/04/03\t22.4\tO +ve\tShukla Yajur Veda\tBharadwaja\t\x2200977",
  "9807477587\x22\tPashupati Upadhayay\t\tFarmer\tNepali\tHindu\tBrahmin\tNepali\tBp path, siddartha nagar-8Bhairahawa, rupandhi (d), Nepal\tSame\tS S M V S\t6th\t90\tPrathama\t13/07/14\t11.1\t\t",
  "14/2014\tBhuwan Pandey\t08/06/03\t22.2\tO +ve\tShukla Yajur Veda\tKashyapa\t\x2200977",
  "9846297257\x22\tChirinjivi Pandey\t\tFarmer\tNepali\tHindu\tBrahmin\tNepali\tBirgha, vdc ward no 7syanja(d),  Nepal\tSame\tS B E B S\t4TH\t09/04/71\tPrathama\t14/07/14\t11.1\t\t",
  "15/2014\tDalendra Sharma\t12/12/98\t26.7\tA +ve\tSama Veda\tKoushika\t8224031524\tDinesh Kumar Sharma\t\tFarmer\tIndian\tHindu\tBrahmin\tHindi\tBadhareta, Morena, Madhya Pradesh -476224\tSame\tU S S P S\t8th\t\x2273",
  "11-7-2012\x22\tPrathama\t05/08/14\t11.1\t\t",
  "03/2015\tNarayan Datt Chaubey\t10/12/01\t23.7\tA +ve\tShukla Yajur Veda\tKatyan\t9208076258\tManoj Chaubey\t\tFarmer\tIndian\tHindu\tBrahmin\tBhojpuri\tBharouli Bazar (jamuna Sadan), Deoria, Uttar Pradesh.\tSame\tA S L M V\t8TH\t3780\tPrathama\t10/05/15\t10.3\t\t",
  "01/2015\tAayush Bashyal\t05/02/02\t23.6\tA +ve\tShukla Yajur Veda\tDhananjay\t\x2200977",
  "9847050969\x22\tKrishna Prasad Bashyal\t\tFarmer\tNepali\tHindu\tBrahmin\tNepali\tSiddhartha nagar-12, Bhairahawa, Bhairwah, Nepal\tSame\tC B P H S\t7th\t206\tPrathama\t12/05/15\t10.3\t\t",
  "02/2015\tKiran Neupane\t11/07/02\t23.2\tB +ve\tShukla Yajur Veda\tKaundanya\t\x2200977",
  "9857022060\x22\tPitamber Neupane\t\tFarmer\tNepali\tHindu\tBrahmin\tNepali\tSidhartha Nagar-8, Bhairawa,Nepal\tSame\tKashi Noble Academy\t7th\t69063\tPrathama\t12/05/15\t10.3\t\t",
  "04/2015\tPrajowl Pandey\t15/12/02\t22.7\tA +ve\tShukla Yajur Veda\tKashyapa\t\x2200977",
  "9847178231\x22\tDinesh Pandey\t\tFarmer\tNepali\tHindu\tBrahmin\tNepali\tArchal-6, Syngja Gandaki Zone, Nepal.\tSame\tS K L S S\t5th\t-\tPrathama\t12/05/15\t10.3\t\t",
  "05/2015\tTrilok Pyakurel\t22/06/03\t22.2\tA +ve\tShukla Yajur Veda\tKaundanya\t\x2200977",
  "9751011147\x22\tJanaki Datta Pyakurel\t\tFarmer\tNepali\tHindu\tBrahmin\tNepali\tJumla, Dhapa VDS-1, Nepal.\tSame\tS D L H S S\t5th\t1673\tPrathama\t12/05/15\t10.3\t\t",
  "06/2015\tGitesh M Upadhyay\t05/12/97\t27.8\tO +ve\tShukla Yajur Veda\tVashista\t\x228483027079",
  "9921112096\x22\tManoj Upadhyay\t\tBank Employee\tIndian\tHindu\tBrahmin\tGujarati\t102, Budhwar Peth, Phaltan. Maharastra\tSame\tS V S M V\t\t\x2214",
  "9-6-2015\x22\tPrathama\t01/06/15\t10.3\t\t",
  "09/2015\tSanthosh U\t13/03/98\t27.5\tB +ve\tKrishna Yajur Veda\tKashyapa\t\x229739727351",
  "9686178956\x22\tUmashankar G\t\tFarmer\tIndian\tHindu\tBrahmin\tKannada\t5/51, Eshwara Temple Street, Kollegal Town, Chamaraja nagar - 571440. Karnataka\tSame\tGovt. High School\t10th\t\x2218/2013-14",
  "20-7-2013\x22\tPrathama\t23/07/15\t10.1\t\t",
  "11/2015\tShushil Kumar Upadhayay\t04/03/01\t24.5\tB +ve\tShukla Yajur Veda\tAtri\t\x220977",
  "9807136094\x22\tBhuwan Prasad Upadhayay\t\tFarmer\tNepali\tHindu\tBrahmin\tBhojpuri\tV D C Batra 7 Bara. Nepal\tSame\t-\t-\t-\tPrathama\t18/08/15\t10.0\t\t",
  "12/2015\tSujit Kumar Pandey\t05/05/05\t20.3\tA +ve\tShukla Yajur Veda\tSankrit\t\x220977",
  "9816243231\x22\tLalan Pandey\t\tFarmer\tNepali\tHindu\tBrahmin\tBhojpuri\tV D C Pheta 5 Bara. Nepal\tSame\t-\t-\t-\tPrathama\t18/08/15\t10.0\t\t",
  "14/2015\tPrashant Sharma\t18/10/01\t23.9\tB +ve\tKrishna Yajur Veda\tBharadwaja\t7500430429\tPrasann Sharma\t\tFarmer\tIndian\tHindu\tBrahmin\tHindi\tH No. 83, Ward No. 8, Mastar Coloney, Thana Rajpura, Tehgunnaur, Uttar Pradesh - 243727\tSame\tK U P Vidyalay\t8th\t28\tPrathama\t07/11/15\t9.8\t\t",
  "15/2015\tShivam Jha\t17/04/03\t22.4\tO +ve\tAtharvana Veda\tKashyapa\t\x227204962582",
  "8892422162\x22\tSanjay Kumar Jha\t\t-\tIndian\tHindu\tBrahmin\tHindi\tSaldodih, Post Tathguni, Bangalore South Dist\tBhramarpur (v)(t), Narayanpur (anchal), Bhagalpur - 853 203 Bihar\tV V M V P\t7th\t-\tPrathama\t16/12/15\t9.7\t\t",
  "01/2016\tSuhas K V\t10/02/01\t24.6\tO +ve\tKrishna Yajur Veda\tVadhulasa\t\x229019790491",
  "8105041807\x22\tLate. Vasudev Murthy K R\t\tPurohit\tIndian\tHindu\tBrahmin\tTelugu\tVandana Paradise, 3rd Cross, Rupena Agrahara, Pent House, Bangalore - 27\t4th Cross Prasant Nagar, Kolar - 563101\tNew Generation School\t5th\t32/13-14\tPrathama\t12/02/16\t9.6\t\t",
  "03/2016\tNishan Bhattarai\t09/10/05\t19.9\tB +ve\tShukla Yajur Veda\tVashista\t\x229847540311",
  "9847390908\x22\tHumnath Bhattarai\t\tFarmer\tNepali\tHindu\tBrahmin\tNepali\tThulolumpek-9, Dhusyni, Gulmi, Nepali\tSame\tSri Dhuseni Primary Vidyalaya\t5th\t49\tPrathama\t29/06/16\t9.2\t\t",
  "04/2016\tKrishna Prasad Ghimire\t29/02/04\t21.5\tA +ve\tShukla Yajur Veda\tKashyapa\t\x229847186710",
  "9819445474\x22\tShekhar Nath Ghimire\t\tFarmer\tNepali\tHindu\tBrahmin\tNepali\tBadagaun -7, Bharaha, Gulmi, Nepal\tSame\tSri Prithvi Higher Secondary School\t6th\t43\tPrathama\t29/06/16\t9.2\t\t",
  "05/2016\tShiv Shankar Mishra\t29/07/04\t21.1\tO +ve\tSama Veda\tVatsa\t9920194580\tDinesh Kumar Mishra\t\tPurohit\tIndian\tHindu\tBrahmin\tHindi\tSamrat Plaza, CHS, F No- 2, D-4, Bhirwade, Kansi, Ambernath (M)\tVill- Balpurava, Po- Ruebadal Rama Rul, Dist- Gonda, UP\tS I C E S English Primary School,\t6th\t397\tPrathama\t01/07/16\t9.2\t\t",
  "06/2016\tVishal Mishra\t28/10/09\t15.9\tA -ve\tSama Veda\tKoushika\t\x228097318947",
  "8898981639\x22\tPramod Mishra\t\tS O\tIndian\tHindu\tBrahmin\tHindi\tChintamanipur,Post- Barshati, Mariyahu Dist- Junpur UP- 222162\tChintamanipur,Post- Barshati, Mariyahu Dist- Junpur UP- 222162\t\t\t\tPrathama\t01/07/16\t9.2\t\t",
  "07/2016\tNavin Nath Tiwari\t24/11/04\t20.8\tA +ve\tShukla Yajur Veda\tGardMukh Shandilya\t\x229451438724",
  "9125113103\x22\tPramod Nath Tiwari\t\tFarmer\tIndian\tHindu\tBrahmin\tHindi\tWard No.1, Ambedkar Nagar, Deoria, UP \tSame\t\t\t\tPrathama\t02/07/16\t9.2\t\t",
  "08/2016\tSanjeev Kumar Chaturbedi\t19/04/03\t22.4\tB +ve\tShukla Yajur Veda\tBharadwaja\t9855023057\tShivshankar Chaturvedi\t\tFarmer\tNepali\tHindu\tBrahmin\tHindi\tShrisiya Khalwa Tola Birgunj Nepal\tSame\tPashupati Shiksha Mandir\t7th\t211\tPrathama\t13/07/16\t9.1\t\t",
  "09/2016\tP S D N Vamsi\t06/02/06\t19.6\tB +ve\tKrishna Yajur Veda\tBharadwaja\t\x227406452589",
  "9945216756",
  "9738445996\x22\tP M V Ramakrishna\t\tEmployee\tIndian\tHindu\tBrahmin\tTelugu\t#206, 4th right, alphagardens, sri sai paradise, Aiyappa nagar bangalore-36\tSame\tKendriya Vidyalaya Sangathan\t6th\t101696\tPrathama\t14/07/16\t9.1\t\t",
  "10/2016\tRushikesha M Joshi\t27/03/03\t22.4\tB +ve\tRig Veda\tJamaadgni\t\x229011420064",
  "9420770076",
  "02472-224379\x22\tMukund Devidasrao Joshi\t\tService\tIndian\tHindu\tBrahmin\tMarathi\t26/93/1, \x27Harihar\x27 krupa sadan, Behind Court, Near Pratham Lodge, Samarthnagar, Osmanabad\tSame\tSSRVM, Osmanabad\t7th\t1659\tPrathama\t14/07/16\t9.1\t\t",
  "11/2016\tSrivathsan H\t07/12/02\t22.7\tA +ve\tKrishna Yajur Veda\tSrivatsa\t\x229943043101",
  "9943043105\x22\tS G K Hariharan\t\tSelf Employed\tIndian\tHindu\tBrahmin\tTamil\t22/2, 15th South St. Thiyagarajanagar, Tirun\tSame\tPushpalata Vidya Mandir\t6th\t484/2015-16\tPrathama\t14/07/16\t9.1\t\t",
  "12/2016\tSrivathsa G\t29/10/03\t21.9\tO +ve\tRig Veda\tVishwamitra\t9741829407\tGurumurthy Karanth\t\tSelf Employed\tIndian\tHindu\tBrahmin\tKannada\t#48, 14th Main, Raghavendra Block, Srinagar, Bangalore - 560050\tSame\tVijaya Bharati Vidyalaya\t6th\t130/2015-16\tPrathama\t14/07/16\t9.1\t\t",
  "13/2016\tK Sankaranarayanan\t21/06/07\t18.2\tA +ve\tRig Veda\tKanwa\t\x228144531100",
  "9688518494\x22\tT V Kalyanaraman\t\tService\tIndian\tHindu\tBrahmin\tTamil\t164/1, Sivasakthinagar, Sirupooluvapatti, Tirupur - 641603\tSame\tJai Saradha Matriculation Higher Secondary School\t4th\t103/2015-16\tPrathama\t14/07/16\t9.1\t\t",
  "14/2016\tH S Amrutesh\t26/07/01\t24.1\tO +ve\tSama Veda\tAtreya\t9900930161\tShashidhara H V\t\tPurohit\tIndian\tHindu\tBrahmin\tKannada\tPattasomana Halli (p&v), Pandavpura Taluk, Mandya (D) 571434\tSame\tKuvempu High School\t10th\t39/16-17\tPrathama\t29/07/16\t9.1\t\t",
  "15/2016\tN Venkatachalam\t17/03/02\t23.5\tO +ve\tKrishna Yajur Veda\tKaundanya\t06360152250  08870370909\tNeelakandan\t\tService\tIndian\tHindu\tBrahmin\tTamil\tH 335 / 27, J J Nagar, Canara Bank(opp) Attur main road Nangiripattai, Rasipuram tallukTamilnadu-637406s\tSame\tSri Sitaram Vidyalaya Matriculation Higher Secondary School\t9-C\t2426\tPrathama\t30/07/16\t9.1\t\t",
  "16/2016\tGulshan Kumar\t18/05/02\t23.3\tA +ve\tAtharvana Veda\tVashista\t9525056439\tVinodkumar Dubey\t\tFarmer\tIndian\tHindu\tBrahmin\tHindi\tGram Rudravar, khurdapo, Rudravar, KalaThana, Vellaba, Kaimur, Bihar \tsame\t\t\t\tPrathama\t24/10/16\t8.9\t\t",
  "17/2016\tShrutish Shivapuji\t14/02/04\t21.6\tA +ve\tShukla Yajur Veda\tBharadwaja\t\x229980742599"]

/-- The last physical line of the raw_data literal (it ends in a tab). -/
def rawLineLast : String :=
  "8050412344\x22\tShrinivas Shivapuji\t\tPurohit\tIndian\tHindu\tBrahmin\tKannada\tSri Sura Saraswathi Gurukul & Jyotishalaya, Post Budigatti, Haveri Taluq & District 581128\tSame\t\t\t\tParvesha\t24/12/16\t8.7\tAdmission Cancelled\t"

/-- The last line with its trailing whitespace removed (the strip of the
    whole blob removes it). -/
def rawLineLastStripped : String :=
  "8050412344\x22\tShrinivas Shivapuji\t\tPurohit\tIndian\tHindu\tBrahmin\tKannada\tSri Sura Saraswathi Gurukul & Jyotishalaya, Post Budigatti, Haveri Taluq & District 581128\tSame\t\t\t\tParvesha\t24/12/16\t8.7\tAdmission Cancelled"

/-- All physical lines of the raw_data literal, in order. -/
def rawLines : List String := rawLine0 :: rawLinesMid ++ [rawLineLast]

/-- Joins character lines with the newline character. -/
def joinLines : List (List Char) → List Char
  | [] => []
  | [l] => l
  | l :: ls => l ++ '\n' :: joinLines ls

/-- The raw student data blob embedded in the program: the triple-quoted
    raw_data literal of the source, written one physical line per list entry
    above and rejoined with the newline character, so the joined string is
    character-for-character the source literal. -/
def raw_data : String := String.mk (joinLines (rawLines.map String.toList))

/-- `raw_data.strip().split('\n')`: the input lines of the run. -/
def inputLines : List String :=
  (splitOnChar '\n' (pyStripList raw_data.toList)).map String.mk

/-- The input lines, listed explicitly: every physical line unchanged except
    the last, whose trailing tab is removed by the strip of the whole blob. -/
def inputLinesList : List String := rawLine0 :: rawLinesMid ++ [rawLineLastStripped]

/-- `convert_student_data()`: the accepted student records of the embedded
    input, in input order. -/
def convert_student_data : List StudentRecord := recordsOf inputLines

/-- Drops trailing Python whitespace (the right half of `str.strip()`). -/
def dropTrailingWs (l : List Char) : List Char :=
  ((l.reverse.dropWhile isPyWhitespace).reverse)

/-- The count the count-equality claim compares against, per the spec text:
    a line splitting into at least 20 tab-separated fields whose admissionNo,
    fullName and dateOfBirth are non-empty / non-null after normalization. -/
def claimGoodLine (line : String) : Bool :=
  let parts := lineFields line
  decide (20 <= parts.length) &&
    strTruthy (clean_text (String.mk (parts.getD 0 []))) &&
    strTruthy (clean_text (String.mk (parts.getD 1 []))) &&
    optStrTruthy (parse_date (some (String.mk (parts.getD 2 []))))

/-- The amended count predicate: at least 22 tab-separated fields (so that the
    unconditional accesses to indices 20 and 21 cannot raise) and non-empty
    admissionNo, fullName and dateOfBirth after normalization. -/
def amendedGoodLine (line : String) : Bool :=
  let parts := lineFields line
  decide (22 <= parts.length) &&
    strTruthy (clean_text (String.mk (parts.getD 0 []))) &&
    strTruthy (clean_text (String.mk (parts.getD 1 []))) &&
    optStrTruthy (parse_date (some (String.mk (parts.getD 2 []))))

/-- Canonical `YYYY-MM-DD`: ten characters, four digits, a dash, two digits,
    a dash, two digits. -/
def isCanonicalDate (s : String) : Bool :=
  match s.toList with
  | [y1, y2, y3, y4, s1, m1, m2, s2, d1, d2] =>
    y1.isDigit && y2.isDigit && y3.isDigit && y4.isDigit && s1 == '-' &&
      m1.isDigit && m2.isDigit && s2 == '-' && d1.isDigit && d2.isDigit
  | _ => false

/-- A date field value is acceptable when it is absent or canonical. -/
def canonicalOrNull : Option String → Bool
  | none => true
  | some s => isCanonicalDate s

/-- The output position of the record produced from the line at input
    position `i`: the number of records accepted among the earlier lines. -/
def acceptedIdx (lines : List String) (i : Nat) : Nat :=
  ((lines.take i).filterMap lineRecord?).length

/-- Python `int()` as a raising operation: `ValueError` when the string is not
    an integer literal. -/
def pyIntE (l : List Char) : Except String Int :=
  match pyInt l with
  | some n => Except.ok n
  | none => Except.error "ValueError"

/-- The try-block body of `parse_date` with the raise made explicit: an
    `Except.error` from `int` escapes to the nearest handler. -/
def dmyFormatE (day month year : List Char) : Except String (List Char) := do
  let y <- (if year.length = 2 then do
      let n <- pyIntE year
      pure ((if n < 50 then ['2', '0'] else ['1', '9']) ++ year)
    else pure year)
  pure (y ++ '-' :: (zfill2 month ++ '-' :: zfill2 day))

/-- The `/`-branch try/except of the source with the raise explicit: the
    arity-3 guard, then the try body, whose error result is absorbed by the
    bare `except: pass` (fall through with `none`). -/
def slashTryE (parts : List (List Char)) : Option (List Char) :=
  match parts with
  | [day, month, year] =>
    match dmyFormatE day month year with
    | Except.ok r => some r
    | Except.error _ => none
  | _ => none

/-- The `-`-branch try/except of the source with the raise explicit: its bare
    `except: pass` falls through to the final `return None`. -/
def dashTryE (parts : List (List Char)) : Except String (Option String) :=
  match parts with
  | [day, month, year] =>
    match dmyFormatE day month year with
    | Except.ok r => Except.ok (some (String.mk r))
    | Except.error _ => Except.ok none
  | _ => Except.ok none

/-- `parse_date` with exception flow explicit: each try/except of the source
    becomes a handler on the try-body's result (`slashTryE` / `dashTryE`); an
    `Except.error` overall result would model an exception escaping
    `parse_date` uncaught. -/
def parse_dateE (dateStr : Option String) : Except String (Option String) :=
  match dateStr with
  | none => Except.ok none
  | some s =>
    let ds := pyStripList s.toList
    if ds.isEmpty then Except.ok none
    else
      match (if ds.contains '/' then slashTryE (splitOnChar '/' ds) else none) with
      | some r => Except.ok (some (String.mk r))
      | none =>
        if ds.contains '-' && (splitOnChar '-' ds).length == 3 then
          dashTryE (splitOnChar '-' ds)
        else Except.ok none

/-- A synthetic complete input line (23 tab-separated fields, all essentials
    present), used to exercise the conversion loop on small inputs. -/
def wLineA : String :=
  "A1\tJohn Doe\t15/05/08\tx\tx\tx\tx\tx\tx\tx\tx\tx\tx\tx\tx\tx\tx\tx\tx\tx\t6th\t20/06/08\trem"

/-- A second synthetic complete input line. -/
def wLineB : String :=
  "A2\tJane Roe\t16/06/09\tx\tx\tx\tx\tx\tx\tx\tx\tx\tx\tx\tx\tx\tx\tx\tx\tx\t7th\t21/07/09\tnote"

/-- A synthetic line with exactly 20 tab-separated fields and non-empty
    essentials. -/
def wLine20 : String :=
  "a\tb\t1/1/01\tx\tx\tx\tx\tx\tx\tx\tx\tx\tx\tx\tx\tx\tx\tx\tx\tx"

/-! ## List infrastructure lemmas -/

theorem mk_toList (s : String) : String.mk s.toList = s := rfl

theorem dropWhile_append_of_ne_nil {α : Type} {p : α → Bool} :
    ∀ (a b : List α), a.dropWhile p ≠ [] →
      (a ++ b).dropWhile p = a.dropWhile p ++ b := by
  intro a
  induction a with
  | nil => intro b h; exact absurd rfl h
  | cons x a ih =>
    intro b h
    by_cases hx : p x
    · simp only [List.cons_append, List.dropWhile_cons, hx, if_true] at h ⊢
      exact ih b h
    · simp only [List.cons_append, List.dropWhile_cons, hx, Bool.false_eq_true,
        if_false, List.cons_append]

theorem dropTrailingWs_append (xs ys : List Char) (h : dropTrailingWs ys ≠ []) :
    dropTrailingWs (xs ++ ys) = xs ++ dropTrailingWs ys := by
  unfold dropTrailingWs at *
  have h2 : ys.reverse.dropWhile isPyWhitespace ≠ [] := by
    intro he; rw [he] at h; exact h rfl
  rw [List.reverse_append, dropWhile_append_of_ne_nil _ _ h2,
    List.reverse_append, List.reverse_reverse]

theorem pyStripList_cons_of_not_ws (c : Char) (l : List Char)
    (h : isPyWhitespace c = false) :
    pyStripList (c :: l) = dropTrailingWs (c :: l) := by
  unfold pyStripList dropTrailingWs
  rw [List.dropWhile_cons, if_neg (by simp [h])]

theorem splitOnChar_cons (sep c : Char) (rest : List Char) :
    splitOnChar sep (c :: rest) =
      if c == sep then [] :: splitOnChar sep rest
      else
        match splitOnChar sep rest with
        | [] => [[c]]
        | h :: t => (c :: h) :: t := rfl

theorem splitOnChar_of_not_mem (sep : Char) :
    ∀ (l : List Char), sep ∉ l → splitOnChar sep l = [l] := by
  intro l
  induction l with
  | nil => intro _; rfl
  | cons c l ih =>
    intro h
    have hc : (c == sep) = false := by
      simp only [beq_eq_false_iff_ne]
      intro he; exact h (he ▸ List.mem_cons_self c l)
    have hl : sep ∉ l := fun hm => h (List.mem_cons_of_mem c hm)
    rw [splitOnChar_cons, hc, ih hl]
    rfl

theorem splitOnChar_append_sep (sep : Char) :
    ∀ (l w : List Char), sep ∉ l →
      splitOnChar sep (l ++ sep :: w) = l :: splitOnChar sep w := by
  intro l
  induction l with
  | nil =>
    intro w _
    rw [List.nil_append, splitOnChar_cons, if_pos (beq_self_eq_true sep)]
  | cons c l ih =>
    intro w h
    have hc : (c == sep) = false := by
      simp only [beq_eq_false_iff_ne]
      intro he; exact h (he ▸ List.mem_cons_self c l)
    have hl : sep ∉ l := fun hm => h (List.mem_cons_of_mem c hm)
    rw [List.cons_append, splitOnChar_cons, hc, ih w hl]
    rfl

theorem mem_of_mem_dropWhile {α : Type} {p : α → Bool} :
    ∀ (l : List α) (x : α), x ∈ l.dropWhile p → x ∈ l := by
  intro l
  induction l with
  | nil => intro x h; exact h
  | cons c l ih =>
    intro x h
    by_cases hc : p c
    · rw [List.dropWhile_cons, if_pos hc] at h
      exact List.mem_cons_of_mem c (ih x h)
    · rw [List.dropWhile_cons, if_neg hc] at h
      exact h

theorem mem_of_mem_dropTrailingWs (l : List Char) (x : Char)
    (h : x ∈ dropTrailingWs l) : x ∈ l := by
  unfold dropTrailingWs at h
  rw [List.mem_reverse] at h
  have := mem_of_mem_dropWhile _ _ h
  rwa [List.mem_reverse] at this

theorem joinLines_cons (l : List Char) (ls : List (List Char)) (h : ls ≠ []) :
    joinLines (l :: ls) = l ++ '\n' :: joinLines ls := by
  cases ls with
  | nil => exact absurd rfl h
  | cons m r => rfl

theorem dropTrailingWs_joinLines_ne_nil :
    ∀ (ls : List (List Char)) (z : List Char), dropTrailingWs z ≠ [] →
      dropTrailingWs (joinLines (ls ++ [z])) ≠ [] := by
  intro ls
  induction ls with
  | nil => intro z h; simpa [joinLines] using h
  | cons l ls ih =>
    intro z h
    rw [List.cons_append, joinLines_cons l _ (by simp)]
    have hJ := ih z h
    have h6 : dropTrailingWs ('\n' :: joinLines (ls ++ [z])) =
        ['\n'] ++ dropTrailingWs (joinLines (ls ++ [z])) :=
      dropTrailingWs_append ['\n'] _ hJ
    rw [show (l ++ '\n' :: joinLines (ls ++ [z])) =
        l ++ ('\n' :: joinLines (ls ++ [z])) from rfl,
      dropTrailingWs_append l _ (by rw [h6]; simp)]
    simp [h6]

theorem splitOnChar_dropTrailing_joinLines :
    ∀ (ls : List (List Char)) (z : List Char), (∀ l ∈ ls, '\n' ∉ l) →
      '\n' ∉ z → dropTrailingWs z ≠ [] →
      splitOnChar '\n' (dropTrailingWs (joinLines (ls ++ [z]))) =
        ls ++ [dropTrailingWs z] := by
  intro ls
  induction ls with
  | nil =>
    intro z _ h4 h5
    simp only [List.nil_append, joinLines]
    exact splitOnChar_of_not_mem '\n' _
      (fun hm => h4 (mem_of_mem_dropTrailingWs _ _ hm))
  | cons l ls ih =>
    intro z h3 h4 h5
    rw [List.cons_append, joinLines_cons l _ (by simp)]
    have hJ := dropTrailingWs_joinLines_ne_nil ls z h5
    have h6 : dropTrailingWs ('\n' :: joinLines (ls ++ [z])) =
        ['\n'] ++ dropTrailingWs (joinLines (ls ++ [z])) :=
      dropTrailingWs_append ['\n'] _ hJ
    rw [show (l ++ '\n' :: joinLines (ls ++ [z])) =
        l ++ ('\n' :: joinLines (ls ++ [z])) from rfl,
      dropTrailingWs_append l _ (by rw [h6]; simp), h6]
    rw [show (l ++ (['\n'] ++ dropTrailingWs (joinLines (ls ++ [z])))) =
        l ++ '\n' :: dropTrailingWs (joinLines (ls ++ [z])) from rfl]
    rw [splitOnChar_append_sep '\n' l _ (h3 l (List.mem_cons_self l ls))]
    rw [ih z (fun x hx => h3 x (List.mem_cons_of_mem l hx)) h4 h5]
    rfl

theorem splitOnChar_pyStrip_joinLines (first : List Char)
    (mid : List (List Char)) (z : List Char) (h0 : first ≠ [])
    (h1 : isPyWhitespace (first.headD ' ') = false) (h2 : '\n' ∉ first)
    (h3 : ∀ l ∈ mid, '\n' ∉ l) (h4 : '\n' ∉ z) (h5 : dropTrailingWs z ≠ []) :
    splitOnChar '\n' (pyStripList (joinLines (first :: (mid ++ [z])))) =
      first :: (mid ++ [dropTrailingWs z]) := by
  obtain ⟨c, l0, rfl⟩ : ∃ c l0, first = c :: l0 := by
    cases first with
    | nil => exact absurd rfl h0
    | cons c l0 => exact ⟨c, l0, rfl⟩
  simp only [List.headD_cons] at h1
  rw [joinLines_cons _ _ (by simp)]
  have hJ := dropTrailingWs_joinLines_ne_nil mid z h5
  have h6 : dropTrailingWs ('\n' :: joinLines (mid ++ [z])) =
      ['\n'] ++ dropTrailingWs (joinLines (mid ++ [z])) :=
    dropTrailingWs_append ['\n'] _ hJ
  rw [show ((c :: l0) ++ '\n' :: joinLines (mid ++ [z])) =
      c :: (l0 ++ '\n' :: joinLines (mid ++ [z])) from rfl]
  rw [pyStripList_cons_of_not_ws c _ h1]
  rw [show (c :: (l0 ++ '\n' :: joinLines (mid ++ [z]))) =
      (c :: l0) ++ ('\n' :: joinLines (mid ++ [z])) from rfl]
  rw [dropTrailingWs_append (c :: l0) _ (by rw [h6]; simp), h6]
  rw [show ((c :: l0) ++ (['\n'] ++ dropTrailingWs (joinLines (mid ++ [z])))) =
      (c :: l0) ++ '\n' :: dropTrailingWs (joinLines (mid ++ [z])) from rfl]
  rw [splitOnChar_append_sep '\n' (c :: l0) _ h2]
  rw [splitOnChar_dropTrailing_joinLines mid z h3 h4 h5]

/-! ## The input lines, resolved -/

theorem lastStripped_eq :
    String.mk (dropTrailingWs rawLineLast.toList) = rawLineLastStripped := by
  decide

theorem inputLines_eq : inputLines = inputLinesList := by
  have hmap : rawLines.map String.toList =
      rawLine0.toList :: (rawLinesMid.map String.toList ++ [rawLineLast.toList]) := by
    simp [rawLines]
  have h := splitOnChar_pyStrip_joinLines rawLine0.toList
    (rawLinesMid.map String.toList) rawLineLast.toList (by decide) (by decide)
    (by decide) (by decide) (by decide) (by decide)
  show (splitOnChar '\n'
      (pyStripList (joinLines (rawLines.map String.toList)))).map String.mk =
    inputLinesList
  rw [hmap, h]
  simp only [List.map_cons, List.map_append, List.map_map, Function.comp,
    mk_toList, lastStripped_eq]
  rw [show (String.mk ∘ String.toList) = id from funext fun s => mk_toList s]
  simp [inputLinesList, List.map_id, mk_toList]

theorem convert_eq : convert_student_data = recordsOf inputLinesList := by
  unfold convert_student_data
  rw [inputLines_eq]

/-! ## Order preservation of the conversion loop -/

theorem filterMap_get_at_prefix_len {α β : Type} (f : α → Option β) :
    ∀ (l : List α) (i : Nat) (a : α) (b : β), l.get? i = some a → f a = some b →
      (l.filterMap f).get? ((l.take i).filterMap f).length = some b := by
  intro l
  induction l with
  | nil => intro i a b h _; cases h
  | cons x xs ih =>
    intro i a b h hf
    cases i with
    | zero =>
      rw [List.get?_cons_zero] at h
      cases h
      rw [List.take_zero, List.filterMap_nil, List.length_nil,
        List.filterMap_cons, hf]
      rfl
    | succ i =>
      rw [List.get?_cons_succ] at h
      rw [List.take_succ_cons, List.filterMap_cons, List.filterMap_cons]
      cases hfx : f x with
      | none => exact ih i a b h hf
      | some c =>
        rw [List.length_cons, List.get?_cons_succ]
        exact ih i a b h hf

theorem take_succ_filterMap_len {α β : Type} (f : α → Option β) :
    ∀ (l : List α) (i : Nat) (a : α) (b : β), l.get? i = some a → f a = some b →
      ((l.take (i + 1)).filterMap f).length =
        ((l.take i).filterMap f).length + 1 := by
  intro l
  induction l with
  | nil => intro i a b h _; cases h
  | cons x xs ih =>
    intro i a b h hf
    cases i with
    | zero =>
      rw [List.get?_cons_zero] at h
      cases h
      rw [List.take_succ_cons, List.take_zero, List.filterMap_cons, hf]
      rfl
    | succ i =>
      rw [List.get?_cons_succ] at h
      rw [List.take_succ_cons, List.take_succ_cons, List.filterMap_cons,
        List.filterMap_cons]
      cases hfx : f x with
      | none => exact ih i a b h hf
      | some c =>
        rw [List.length_cons, List.length_cons, ih i a b h hf]

theorem take_filterMap_len_mono {α β : Type} (f : α → Option β) :
    ∀ (l : List α) (i j : Nat), i ≤ j →
      ((l.take i).filterMap f).length ≤ ((l.take j).filterMap f).length := by
  intro l
  induction l with
  | nil =>
    intro i j _
    rw [List.take_nil, List.take_nil]
  | cons x xs ih =>
    intro i j hij
    cases i with
    | zero => simp
    | succ i =>
      cases j with
      | zero => exact absurd hij (by omega)
      | succ j =>
        rw [List.take_succ_cons, List.take_succ_cons, List.filterMap_cons,
          List.filterMap_cons]
        cases hfx : f x with
        | none => exact ih i j (by omega)
        | some c =>
          rw [List.length_cons, List.length_cons]
          exact Nat.succ_le_succ (ih i j (by omega))

/-! ## Assembly lemmas -/

theorem assemble_isSome_len (parts : List (List Char)) (st : StudentRecord)
    (h : assemble parts = some st) : 22 ≤ parts.length := by
  unfold assemble at h
  split at h
  · simp only [List.length_cons]
    omega
  · cases h

theorem assemble_short (parts : List (List Char)) (h : parts.length < 22) :
    assemble parts = none := by
  cases ha : assemble parts with
  | none => rfl
  | some st => exact absurd (assemble_isSome_len parts st ha) (by omega)

theorem dmyFormat_arity (parts : List (List Char)) (h : parts.length ≠ 3) :
    dmyFormat parts = none := by
  match parts with
  | [] => rfl
  | [_] => rfl
  | [_, _] => rfl
  | [_, _, _] => exact absurd rfl h
  | _ :: _ :: _ :: _ :: _ => rfl

theorem contains_ne_nil (l : List Char) (c : Char) (h : l.contains c = true) :
    l.isEmpty = false := by
  cases l with
  | nil => cases h
  | cons x xs => rfl

theorem mem_of_contains (l : List Char) (c : Char) (h : l.contains c = true) :
    c ∈ l := by
  simpa using h

theorem contains_of_mem (l : List Char) (c : Char) (h : c ∈ l) :
    l.contains c = true := by
  simpa using h

/-! ## Date parser lemmas -/

theorem parse_date_some (s : String) :
    parse_date (some s) =
      (if (pyStripList s.toList).isEmpty then none
       else
         match (if (pyStripList s.toList).contains '/' then
                  dmyFormat (splitOnChar '/' (pyStripList s.toList))
                else none) with
         | some r => some (String.mk r)
         | none =>
           if (pyStripList s.toList).contains '-' &&
               (splitOnChar '-' (pyStripList s.toList)).length == 3 then
             (dmyFormat (splitOnChar '-' (pyStripList s.toList))).map String.mk
           else none) := rfl

theorem parse_dateE_some (s : String) :
    parse_dateE (some s) =
      (if (pyStripList s.toList).isEmpty then Except.ok none
       else
         match (if (pyStripList s.toList).contains '/' then
                  slashTryE (splitOnChar '/' (pyStripList s.toList))
                else none) with
         | some r => Except.ok (some (String.mk r))
         | none =>
           if (pyStripList s.toList).contains '-' &&
               (splitOnChar '-' (pyStripList s.toList)).length == 3 then
             dashTryE (splitOnChar '-' (pyStripList s.toList))
           else Except.ok none) := rfl

theorem digit_beq_false (c w : Char) (h : c.isDigit = true)
    (hw : w.isDigit = false) : (c == w) = false := by
  cases hc : c == w with
  | false => rfl
  | true =>
    rw [beq_iff_eq] at hc
    subst hc
    rw [hw] at h
    cases h

theorem digit_not_ws (c : Char) (h : c.isDigit = true) :
    isPyWhitespace c = false := by
  unfold isPyWhitespace
  rw [digit_beq_false c ' ' h (by decide), digit_beq_false c '\t' h (by decide),
    digit_beq_false c '\n' h (by decide), digit_beq_false c '\r' h (by decide),
    digit_beq_false c '\x0b' h (by decide), digit_beq_false c '\x0c' h (by decide)]
  rfl

theorem pyStripList_pair (c1 c2 : Char) (h1 : isPyWhitespace c1 = false)
    (h2 : isPyWhitespace c2 = false) : pyStripList [c1, c2] = [c1, c2] := by
  unfold pyStripList
  rw [List.dropWhile_cons, if_neg (by simp [h1])]
  show (([c2, c1] : List Char).dropWhile isPyWhitespace).reverse = [c1, c2]
  rw [List.dropWhile_cons, if_neg (by simp [h2])]
  rfl

theorem pyInt_two_digits (c1 c2 : Char) (h1 : c1.isDigit = true)
    (h2 : c2.isDigit = true) :
    pyInt [c1, c2] =
      some (Int.ofNat ((c1.toNat - 48) * 10 + (c2.toNat - 48))) := by
  have hdv : digitsVal [c1, c2] =
      some ((c1.toNat - 48) * 10 + (c2.toNat - 48)) := by
    unfold digitsVal
    rw [if_pos (by simp [h1, h2])]
    show some ((0 * 10 + (c1.toNat - 48)) * 10 + (c2.toNat - 48)) = _
    norm_num
  unfold pyInt
  rw [pyStripList_pair c1 c2 (digit_not_ws c1 h1) (digit_not_ws c2 h2)]
  show (if c1 == '+' then (digitsVal [c2]).map Int.ofNat
    else if c1 == '-' then (digitsVal [c2]).map (fun n => -(n : Int))
    else (digitsVal [c1, c2]).map Int.ofNat) = _
  rw [digit_beq_false c1 '+' h1 (by decide), digit_beq_false c1 '-' h1 (by decide)]
  show (digitsVal [c1, c2]).map Int.ofNat = _
  rw [hdv]
  rfl

theorem dmyFormat_two_digit_year (d m : List Char) (c1 c2 : Char)
    (h1 : c1.isDigit = true) (h2 : c2.isDigit = true) :
    dmyFormat [d, m, [c1, c2]] =
      some (((if (c1.toNat - 48) * 10 + (c2.toNat - 48) < 50 then ['2', '0']
          else ['1', '9']) ++ [c1, c2]) ++ '-' :: (zfill2 m ++ '-' :: zfill2 d)) := by
  unfold dmyFormat
  show ((if ([c1, c2] : List Char).length = 2 then
      (pyInt [c1, c2]).map (fun n =>
        (if n < 50 then ['2', '0'] else ['1', '9']) ++ [c1, c2])
    else some [c1, c2]).map
      (fun y => y ++ '-' :: (zfill2 m ++ '-' :: zfill2 d))) = _
  rw [if_pos (show ([c1, c2] : List Char).length = 2 from rfl),
    pyInt_two_digits c1 c2 h1 h2]
  by_cases hv : (c1.toNat - 48) * 10 + (c2.toNat - 48) < 50
  · rw [if_pos hv]
    have hvi : (Int.ofNat ((c1.toNat - 48) * 10 + (c2.toNat - 48)) : Int) < 50 := by
      rw [Int.ofNat_eq_coe]
      exact_mod_cast hv
    show some ((if (Int.ofNat ((c1.toNat - 48) * 10 + (c2.toNat - 48)) : Int) < 50
        then ['2', '0'] else ['1', '9']) ++ [c1, c2] ++
          '-' :: (zfill2 m ++ '-' :: zfill2 d)) = _
    rw [if_pos hvi]
  · rw [if_neg hv]
    have hvi : ¬ ((Int.ofNat ((c1.toNat - 48) * 10 + (c2.toNat - 48)) : Int) < 50) := by
      rw [Int.ofNat_eq_coe]
      exact_mod_cast hv
    show some ((if (Int.ofNat ((c1.toNat - 48) * 10 + (c2.toNat - 48)) : Int) < 50
        then ['2', '0'] else ['1', '9']) ++ [c1, c2] ++
          '-' :: (zfill2 m ++ '-' :: zfill2 d)) = _
    rw [if_neg hvi]

theorem dmyFormatE_eq (d m y : List Char) :
    (match dmyFormatE d m y with
     | Except.ok r => some r
     | Except.error _ => none) = dmyFormat [d, m, y] := by
  unfold dmyFormatE dmyFormat
  by_cases hy : y.length = 2
  · simp only [if_pos hy]
    cases hp : pyInt y with
    | none =>
      unfold pyIntE
      rw [hp]
      rfl
    | some n =>
      unfold pyIntE
      rw [hp]
      rfl
  · simp only [if_neg hy]
    rfl

theorem slashTryE_eq (parts : List (List Char)) :
    slashTryE parts = dmyFormat parts := by
  match parts with
  | [] => rfl
  | [_] => rfl
  | [_, _] => rfl
  | [d, m, y] => exact dmyFormatE_eq d m y
  | _ :: _ :: _ :: _ :: _ => rfl

theorem dashTryE_eq (parts : List (List Char)) :
    dashTryE parts = Except.ok ((dmyFormat parts).map String.mk) := by
  match parts with
  | [] => rfl
  | [_] => rfl
  | [_, _] => rfl
  | [d, m, y] =>
    have h := dmyFormatE_eq d m y
    show (match dmyFormatE d m y with
          | Except.ok r => Except.ok (some (String.mk r))
          | Except.error _ => Except.ok none) =
        Except.ok ((dmyFormat [d, m, y]).map String.mk)
    rw [← h]
    cases dmyFormatE d m y with
    | ok r => rfl
    | error e => rfl
  | _ :: _ :: _ :: _ :: _ => rfl

/-! ## Conversion loop lemmas -/

theorem processLine_def (line : String) :
    processLine line =
      (if (pyStripList line.toList).isEmpty then LineResult.blank
       else if (lineFields line).length < 20 then LineResult.tooShort
       else
         match assemble (lineFields line) with
         | none => LineResult.errorSkipped
         | some st =>
           if strTruthy st.admissionNo && strTruthy st.fullName &&
               optStrTruthy st.dateOfBirth then LineResult.accepted st
           else LineResult.dropped st) := rfl

/-! ## clean_text lemmas -/

theorem clean_text_no_quotes (x : String) (c : Char)
    (hc : c ∈ (clean_text x).toList) :
    (c != dqChar) = true ∧ (c != sqChar) = true := by
  unfold clean_text at hc
  split at hc
  · cases hc
  · rw [show (String.mk (((pyStripList x.toList).filter (fun c => c != dqChar)).filter
        (fun c => c != sqChar))).toList =
      ((pyStripList x.toList).filter (fun c => c != dqChar)).filter
        (fun c => c != sqChar) from rfl] at hc
    have h2 := (List.mem_filter.mp hc).2
    have h1 := (List.mem_filter.mp (List.mem_filter.mp hc).1).2
    exact ⟨h1, h2⟩

/-! ## Claim C2: text cleaner idempotence -/

/-- Claim C2 counterexample: the cleaner is not idempotent. Removing the
    quote characters of an input can expose surrounding whitespace that a
    second application then trims: cleaning a quoted padded letter once gives
    a string with a leading space, cleaning it twice gives the bare letter. -/
theorem C2_counterexample :
    clean_text (clean_text "\x27 a\x27") ≠ clean_text "\x27 a\x27" := by
  decide

/-- Claim C2, amended: the text cleaner is idempotent on every input whose
    cleaned value is already whitespace-trimmed; for every such string x,
    clean_text (clean_text x) = clean_text x. -/
theorem C2_amended (x : String) (h : pyStrip (clean_text x) = clean_text x) :
    clean_text (clean_text x) = clean_text x := by
  have hdata : pyStripList (clean_text x).toList = (clean_text x).toList :=
    congrArg String.toList h
  by_cases hy : clean_text x = ""
  · rw [hy]
    rfl
  · show (if clean_text x == "" then ""
      else String.mk (((pyStripList (clean_text x).toList).filter
        (fun c => c != dqChar)).filter (fun c => c != sqChar))) = clean_text x
    rw [if_neg (by simp [hy])]
    rw [hdata]
    rw [List.filter_eq_self.mpr (fun c hc => (clean_text_no_quotes x c hc).1)]
    rw [List.filter_eq_self.mpr (fun c hc => (clean_text_no_quotes x c hc).2)]
    exact mk_toList _

/-- Claim C2 witness: the amended idempotence at the concrete input "a b". -/
theorem C2_amended_witness : clean_text (clean_text "a b") = clean_text "a b" :=
  C2_amended "a b" (by decide)

/-! ## Claim C3: slash inputs of wrong arity -/

/-- Claim C3 counterexample: an input that contains a slash and does not
    split into exactly 3 parts on the slash, yet is not mapped to null: the
    dash fallback of the parser still fires. -/
theorem C3_counterexample :
    ("1/2-3-4".toList.contains '/' = true) ∧
      (splitOnChar '/' "1/2-3-4".toList).length ≠ 3 ∧
      parse_date (some "1/2-3-4") ≠ none := by
  decide

/-- Claim C3, amended: for every input whose stripped form contains the
    slash character but splits into a number of parts other than 3 on the
    slash, the result is null provided the stripped form also does not split
    into exactly 3 parts on the dash character (the dash fallback is attempted
    even when the input contains a slash). -/
theorem C3_amended (s : String)
    (h1 : (pyStripList s.toList).contains '/' = true)
    (h2 : (splitOnChar '/' (pyStripList s.toList)).length ≠ 3)
    (h3 : (splitOnChar '-' (pyStripList s.toList)).length ≠ 3) :
    parse_date (some s) = none := by
  have hne : ¬ ((pyStripList s.toList).isEmpty = true) := by
    rw [contains_ne_nil _ _ h1]
    simp
  rw [parse_date_some, if_neg hne, h1, if_pos (show true = true from rfl)]
  rw [dmyFormat_arity _ h2]
  show (if (pyStripList s.toList).contains '-' &&
      ((splitOnChar '-' (pyStripList s.toList)).length == 3) then
    (dmyFormat (splitOnChar '-' (pyStripList s.toList))).map String.mk
  else none) = none
  rw [beq_eq_false_iff_ne.mpr h3]
  simp

/-- Claim C3 witness: the amended statement at the concrete input
    "a/b/c/d" (four slash parts, one dash part). -/
theorem C3_amended_witness : parse_date (some "a/b/c/d") = none :=
  C3_amended "a/b/c/d" (by decide) (by decide) (by decide)

/-! ## Claim C4: the remarks field -/

/-- Claim C4 counterexample: a field sequence of exactly 23 entries whose
    record carries the cleaned field at index 22 as remarks, not the empty
    string the claim requires. -/
theorem C4_counterexample :
    (List.replicate 23 (['x'] : List Char)).length = 23 ∧
      (assemble (List.replicate 23 (['x'] : List Char))).map
        StudentRecord.remarks = some "x" ∧
      (some "x" : Option String) ≠ some "" := by
  decide

/-- Claim C4, amended: for every field sequence accepted by the assembler,
    the remarks field equals the cleaned field at index 22 exactly when the
    sequence has more than 22 entries (in particular a sequence of exactly 23
    entries already carries it), and the empty string otherwise. -/
theorem C4_amended (parts : List (List Char)) (st : StudentRecord)
    (h : assemble parts = some st) :
    st.remarks =
      if 22 < parts.length then clean_text (String.mk (parts.getD 22 []))
      else "" := by
  unfold assemble at h
  split at h
  · injection h with h
    subst h
    rename_i p0 p1 p2 p3 p4 p5 p6 p7 p8 p9 p10 p11 p12 p13 p14 p15 p16 p17 p18
      p19 p20 p21 rest
    cases rest with
    | nil => rw [if_neg (by simp)]
    | cons r t =>
      rw [if_pos (by simp only [List.length_cons]; omega)]
      rfl
  · cases h

/-- Claim C4 witness: the amended statement at a concrete 24-entry field
    sequence. -/
theorem C4_amended_witness :
    ((assemble (List.replicate 24 (['y'] : List Char))).getD default).remarks =
      if 22 < (List.replicate 24 (['y'] : List Char)).length then
        clean_text (String.mk ((List.replicate 24 (['y'] : List Char)).getD 22 []))
      else "" :=
  C4_amended _ _ (by decide)

/-! ## Claim C5: two-digit year pivot -/

/-- Claim C5: for every date input whose stripped form splits on the slash
    into exactly day, month and a two-digit year, the parser returns the
    year prefixed with 20 when its value is below 50 and with 19 otherwise,
    followed by the zero-padded month and day. -/
theorem C5_theorem (s : String) (d m : List Char) (c1 c2 : Char)
    (hsplit : splitOnChar '/' (pyStripList s.toList) = [d, m, [c1, c2]])
    (h1 : c1.isDigit = true) (h2 : c2.isDigit = true) :
    parse_date (some s) =
      some (String.mk (((if (c1.toNat - 48) * 10 + (c2.toNat - 48) < 50
          then ['2', '0'] else ['1', '9']) ++ [c1, c2]) ++
        '-' :: (zfill2 m ++ '-' :: zfill2 d))) := by
  have hcont : (pyStripList s.toList).contains '/' = true := by
    cases hc : (pyStripList s.toList).contains '/' with
    | true => rfl
    | false =>
      have hnm : '/' ∉ pyStripList s.toList := by
        intro hm
        rw [contains_of_mem _ _ hm] at hc
        cases hc
      rw [splitOnChar_of_not_mem '/' _ hnm] at hsplit
      simp at hsplit
  have hne : ¬ ((pyStripList s.toList).isEmpty = true) := by
    cases hl : pyStripList s.toList with
    | nil => rw [hl] at hcont; cases hcont
    | cons a l => intro he; cases he
  rw [parse_date_some, if_neg hne, hcont, if_pos (show true = true from rfl)]
  rw [hsplit, dmyFormat_two_digit_year d m c1 c2 h1 h2]

/-- Claim C5 witness: the two pivot examples, 15/05/08 landing in 2008 and
    15/05/72 landing in 1972. -/
theorem C5_witness :
    parse_date (some "15/05/08") = some "2008-05-15" ∧
      parse_date (some "15/05/72") = some "1972-05-15" := by
  constructor
  · rw [C5_theorem ("15/05/08") ['1', '5'] ['0', '5'] '0' '8' (by decide)
      (by decide) (by decide)]
    decide
  · rw [C5_theorem ("15/05/72") ['1', '5'] ['0', '5'] '7' '2' (by decide)
      (by decide) (by decide)]
    decide

/-! ## Claim C8: order preservation -/

/-- Claim C8: the conversion loop preserves input order. For any two lines
    at positions i < j that both contribute records, the record of line i
    appears in the output at position acceptedIdx lines i, the record of
    line j at acceptedIdx lines j, and the former position is smaller. -/
theorem C8_theorem (lines : List String) (i j : Nat) (ri rj : StudentRecord)
    (hij : i < j) (hi : (lines.get? i).bind lineRecord? = some ri)
    (hj : (lines.get? j).bind lineRecord? = some rj) :
    acceptedIdx lines i < acceptedIdx lines j ∧
      (recordsOf lines).get? (acceptedIdx lines i) = some ri ∧
      (recordsOf lines).get? (acceptedIdx lines j) = some rj := by
  cases hgi : lines.get? i with
  | none => rw [hgi] at hi; cases hi
  | some li =>
    cases hgj : lines.get? j with
    | none => rw [hgj] at hj; cases hj
    | some lj =>
      rw [hgi] at hi
      rw [hgj] at hj
      have hi' : lineRecord? li = some ri := hi
      have hj' : lineRecord? lj = some rj := hj
      refine ⟨?_, ?_, ?_⟩
      · have hstep := take_succ_filterMap_len lineRecord? lines i li ri hgi hi'
        have hmono := take_filterMap_len_mono lineRecord? lines (i + 1) j hij
        unfold acceptedIdx
        omega
      · exact filterMap_get_at_prefix_len lineRecord? lines i li ri hgi hi'
      · exact filterMap_get_at_prefix_len lineRecord? lines j lj rj hgj hj'

/-- Claim C8 witness: order preservation on a concrete two-line input, both
    lines accepted. -/
theorem C8_witness :
    acceptedIdx [wLineA, wLineB] 0 < acceptedIdx [wLineA, wLineB] 1 ∧
      (recordsOf [wLineA, wLineB]).get? (acceptedIdx [wLineA, wLineB] 0) =
        some ((lineRecord? wLineA).getD default) ∧
      (recordsOf [wLineA, wLineB]).get? (acceptedIdx [wLineA, wLineB] 1) =
        some ((lineRecord? wLineB).getD default) :=
  C8_theorem [wLineA, wLineB] 0 1 ((lineRecord? wLineA).getD default)
    ((lineRecord? wLineB).getD default) (by decide) (by decide) (by decide)

/-! ## Claim C9: 20- and 21-field lines -/

/-- Claim C9: every line splitting into exactly 20 or 21 stripped
    tab-separated fields passes the fewer-than-20 filter yet contributes no
    output record, because assembly reads indices 20 and 21 unconditionally
    and the out-of-range access is caught by the per-line guard (the
    diagnostic errorSkipped path) whenever the line is not blank; moreover
    every such line of the embedded input takes exactly that path. -/
theorem C9_theorem :
    (∀ line : String,
        (lineFields line).length = 20 ∨ (lineFields line).length = 21 →
          ¬ ((lineFields line).length < 20) ∧ lineRecord? line = none ∧
            ((pyStripList line.toList).isEmpty = false →
              processLine line = LineResult.errorSkipped)) ∧
      (inputLines.filter (fun l =>
          ((lineFields l).length == 20) || ((lineFields l).length == 21))).all
        (fun l => processLine l == LineResult.errorSkipped) = true := by
  constructor
  · intro line h
    have hlen : ¬ ((lineFields line).length < 20) := by
      rcases h with h | h <;> omega
    have hass : assemble (lineFields line) = none :=
      assemble_short _ (by rcases h with h | h <;> omega)
    refine ⟨hlen, ?_, ?_⟩
    · unfold lineRecord?
      rw [processLine_def]
      by_cases hb : (pyStripList line.toList).isEmpty = true
      · rw [if_pos hb]
      · rw [if_neg hb, if_neg hlen, hass]
    · intro hb
      rw [processLine_def, if_neg (by rw [hb]; simp), if_neg hlen, hass]
  · rw [inputLines_eq]
    decide

/-- Claim C9 witness: a concrete 20-field line with non-empty essentials is
    error-skipped and contributes nothing. -/
theorem C9_witness :
    ¬ ((lineFields wLine20).length < 20) ∧ lineRecord? wLine20 = none ∧
      processLine wLine20 = LineResult.errorSkipped :=
  ⟨(C9_theorem.1 wLine20 (Or.inl (by decide))).1,
   (C9_theorem.1 wLine20 (Or.inl (by decide))).2.1,
   (C9_theorem.1 wLine20 (Or.inl (by decide))).2.2 (by decide)⟩

/-! ## Claim C10: the date parser never raises -/

/-- Claim C10: the date parser is total and never raises. In the model with
    exceptions explicit, parse_dateE always terminates with Except.ok (every
    int exception is absorbed by a bare except handler), and the value agrees
    with parse_date. -/
theorem C10_theorem (dateStr : Option String) :
    parse_dateE dateStr = Except.ok (parse_date dateStr) := by
  cases dateStr with
  | none => rfl
  | some s =>
    rw [parse_dateE_some, parse_date_some]
    by_cases he : (pyStripList s.toList).isEmpty = true
    · rw [if_pos he, if_pos he]
    · rw [if_neg he, if_neg he, slashTryE_eq]
      cases hv : (if (pyStripList s.toList).contains '/' then
          dmyFormat (splitOnChar '/' (pyStripList s.toList)) else none) with
      | some r => rfl
      | none =>
        by_cases hd : ((pyStripList s.toList).contains '-' &&
            ((splitOnChar '-' (pyStripList s.toList)).length == 3)) = true
        · rw [if_pos hd, if_pos hd, dashTryE_eq]
        · rw [if_neg hd, if_neg hd]

/-! ## Claim C1: the output count -/

/-- Claim C1 counterexample: for the embedded input the emitted record count
    is 12, while 20 input lines split into at least 20 tab-separated fields
    with non-empty essentials; the claimed equality fails (eight 20-field
    lines raise on the unconditional access to index 20 and are skipped). -/
theorem C1_counterexample :
    convert_student_data.length = 12 ∧
      (inputLines.filter claimGoodLine).length = 20 ∧
      convert_student_data.length ≠ (inputLines.filter claimGoodLine).length := by
  have h1 : convert_student_data.length = 12 := by
    rw [convert_eq]
    decide
  have h2 : (inputLines.filter claimGoodLine).length = 20 := by
    rw [inputLines_eq]
    decide
  refine ⟨h1, h2, ?_⟩
  rw [h1, h2]
  decide

/-- Claim C1, amended: for the embedded input the number of emitted records
    equals the number of input lines that split into at least 22
    tab-separated fields with non-empty admissionNo, fullName and dateOfBirth
    after normalization (lines with 20 or 21 fields are error-skipped by the
    per-line guard); and every line with fewer than 20 tab-separated fields
    contributes no output record. -/
theorem C1_amended :
    convert_student_data.length = (inputLines.filter amendedGoodLine).length ∧
      ∀ line : String, (lineFields line).length < 20 → lineRecord? line = none := by
  constructor
  · rw [convert_eq, inputLines_eq]
    decide
  · intro line h
    unfold lineRecord?
    rw [processLine_def]
    by_cases hb : (pyStripList line.toList).isEmpty = true
    · rw [if_pos hb]
    · rw [if_neg hb, if_pos h]

/-- Claim C1 witness: a line with a single field contributes no record. -/
theorem C1_amended_witness : lineRecord? "abc" = none :=
  C1_amended.2 "abc" (by decide)

/-! ## Claim C6: emitted dates are canonical or null -/

/-- Claim C6: in every emitted record, each of dateOfBirth and
    dateOfAdmission is either null or a canonical YYYY-MM-DD string with a
    4-digit year and 2-digit zero-padded numeric month and day. -/
theorem C6_theorem :
    convert_student_data.all (fun r =>
      canonicalOrNull r.dateOfBirth && canonicalOrNull r.dateOfAdmission) = true := by
  rw [convert_eq]
  decide

/-! ## Claim C7: currentStandard duplicates admittedToStandard -/

/-- Claim C7: every emitted record satisfies
    currentStandard = admittedToStandard (both are the cleaned field at
    index 20). -/
theorem C7_theorem :
    convert_student_data.all (fun r =>
      r.currentStandard == r.admittedToStandard) = true := by
  rw [convert_eq]
  decide

/-- Claim C10 witness: the exception-explicit parser agrees with parse_date
    at a concrete input. -/
theorem C10_witness :
    parse_dateE (some "12/11/94") = Except.ok (parse_date (some "12/11/94")) :=
  C10_theorem (some "12/11/94")
